import Mathlib

/-!
Verification of the user-matching utility (`match_users.ipynb`).

The notebook defines two functions over a table of user records:

* `calculate_compatibility`, a pure scorer over a pair of records, and
* `find_matches`, which locates the record for a given `userId`,
  filters candidates of the complementary role, excludes disliked
  users and the user itself, scores the remaining candidates and
  sorts the `(userName, userId, score)` tuples by descending score
  with Python's stable `list.sort`.

We embed the records with their list-valued columns already parsed
(the notebook applies `ast.literal_eval` to the serialized list
fields before any logic runs).  Python's `set(...)` of a parsed list
is modelled as `List.toFinset`; Python's stable sort is modelled as
`List.mergeSort`, which is stable and sorts by the same key, so it
computes the same list.  The unchecked `.iloc[0]` access, which
raises `IndexError` when the `userId` is absent, is modelled by
returning `none`.
-/

namespace MatchUsers

/-- A user record (one row of the table), with the serialized
list-valued columns already parsed into lists. -/
structure User where
  userId : Nat
  userName : String
  userType : String
  interests : List String
  languages : List String
  travelStyle : String
  preferredActivities : List String
  preferredCountries : List String
  dislikedUserIds : List Nat
deriving DecidableEq

/-- `calculate_compatibility(user1, user2)` from the notebook: a running
`score` accumulates weighted sizes of set intersections plus a travel
style bonus. -/
def calculate_compatibility (user1 user2 : User) : Nat :=
  let score := 0
  let interests1 := user1.interests.toFinset
  let interests2 := user2.interests.toFinset
  let score := score + (interests1 ∩ interests2).card * 10
  let languages1 := user1.languages.toFinset
  let languages2 := user2.languages.toFinset
  let score := score + (languages1 ∩ languages2).card * 30
  let score := if user1.travelStyle = user2.travelStyle then score + 25 else score
  let activities1 := user1.preferredActivities.toFinset
  let activities2 := user2.preferredActivities.toFinset
  let score := score + (activities1 ∩ activities2).card * 10
  let countries1 := user1.preferredCountries.toFinset
  let countries2 := user2.preferredCountries.toFinset
  let score := score + (countries1 ∩ countries2).card * 20
  score

/-- `'Guide' if current_user['userType'] == 'Traveler' else 'Traveler'`. -/
def target_user_type (current_user : User) : String :=
  if current_user.userType == "Traveler" then "Guide" else "Traveler"

/-- The `scores` list that the loop in `find_matches` builds before the
final sort: candidates of the complementary role, minus disliked ids,
minus the user itself, each mapped to `(userName, userId, score)`.
The filters and the loop preserve the iteration order of `users_df`. -/
def pre_sort_scores (current_user : User) (user_id : Nat) (users_df : List User) :
    List (String × Nat × Nat) :=
  let potential_matches := users_df.filter (fun u => u.userType == target_user_type current_user)
  let potential_matches :=
    potential_matches.filter (fun u => !(current_user.dislikedUserIds.contains u.userId))
  (potential_matches.filter (fun u => u.userId != user_id)).map
    (fun u => (u.userName, u.userId, calculate_compatibility current_user u))

/-- The sort key of `scores.sort(key=lambda x: x[2], reverse=True)`:
`a` may precede `b` iff `a`'s score is at least `b`'s. -/
def score_ge (a b : String × Nat × Nat) : Bool :=
  b.2.2 ≤ a.2.2

/-- `find_matches(user_id, users_df)` from the notebook.
`users_df.loc[users_df['userId'] == user_id].iloc[0]` selects the first
row whose `userId` matches; when none matches, `.iloc[0]` raises
`IndexError`, modelled here by `none`.  Python's `list.sort` is stable,
so the sorted result is `List.mergeSort` with the key above. -/
def find_matches (user_id : Nat) (users_df : List User) :
    Option (List (String × Nat × Nat)) :=
  match users_df.find? (fun u => u.userId == user_id) with
  | none => none
  | some current_user =>
      some ((pre_sort_scores current_user user_id users_df).mergeSort score_ge)

/-! ### Helper lemmas -/

/-- Closed form of the accumulated score. -/
lemma compat_closed_form (user1 user2 : User) :
    calculate_compatibility user1 user2 =
      (user1.interests.toFinset ∩ user2.interests.toFinset).card * 10
        + (user1.languages.toFinset ∩ user2.languages.toFinset).card * 30
        + (if user1.travelStyle = user2.travelStyle then 25 else 0)
        + (user1.preferredActivities.toFinset ∩ user2.preferredActivities.toFinset).card * 10
        + (user1.preferredCountries.toFinset ∩ user2.preferredCountries.toFinset).card * 20 := by
  by_cases h : user1.travelStyle = user2.travelStyle <;>
    simp [calculate_compatibility, h]

/-! ### C1 -/

/-- C1: the scorer returns exactly 10 times the number of shared
interests, plus 30 times the number of shared languages, plus 25 if the
travel styles are equal (else 0), plus 10 times the number of shared
preferred activities, plus 20 times the number of shared preferred
countries, each shared count being the size of the set intersection. -/
theorem calculate_compatibility_formula (user1 user2 : User) :
    calculate_compatibility user1 user2 =
      10 * (user1.interests.toFinset ∩ user2.interests.toFinset).card
        + 30 * (user1.languages.toFinset ∩ user2.languages.toFinset).card
        + (if user1.travelStyle = user2.travelStyle then 25 else 0)
        + 10 * (user1.preferredActivities.toFinset ∩ user2.preferredActivities.toFinset).card
        + 20 * (user1.preferredCountries.toFinset ∩ user2.preferredCountries.toFinset).card := by
  rw [compat_closed_form]; ring

/-! ### C5 -/

/-- C5: the compatibility score is symmetric in its two arguments. -/
theorem calculate_compatibility_symm (a b : User) :
    calculate_compatibility a b = calculate_compatibility b a := by
  rw [compat_closed_form, compat_closed_form,
    Finset.inter_comm b.interests.toFinset,
    Finset.inter_comm b.languages.toFinset,
    Finset.inter_comm b.preferredActivities.toFinset,
    Finset.inter_comm b.preferredCountries.toFinset]
  rcases eq_or_ne a.travelStyle b.travelStyle with h | h
  · rw [h]
  · rw [if_neg h, if_neg h.symm]

/-! ### C6 -/

/-- The largest score a user can contribute to: every term of the score
is bounded by the corresponding term here. -/
def max_score (u : User) : Nat :=
  10 * u.interests.toFinset.card + 30 * u.languages.toFinset.card + 25
    + 10 * u.preferredActivities.toFinset.card + 20 * u.preferredCountries.toFinset.card

lemma card_inter_le_left (s t : Finset String) : (s ∩ t).card ≤ s.card :=
  Finset.card_le_card Finset.inter_subset_left

lemma card_inter_le_right (s t : Finset String) : (s ∩ t).card ≤ t.card :=
  Finset.card_le_card Finset.inter_subset_right

/-- C6: the score is non-negative and bounded by
`10*|interests| + 30*|languages| + 25 + 10*|activities| + 20*|countries|`,
where the sizes may be taken from either user. -/
theorem calculate_compatibility_bounds (a b : User) :
    0 ≤ calculate_compatibility a b ∧
      calculate_compatibility a b ≤ max_score a ∧
      calculate_compatibility a b ≤ max_score b := by
  have hi1 := card_inter_le_left a.interests.toFinset b.interests.toFinset
  have hi2 := card_inter_le_right a.interests.toFinset b.interests.toFinset
  have hl1 := card_inter_le_left a.languages.toFinset b.languages.toFinset
  have hl2 := card_inter_le_right a.languages.toFinset b.languages.toFinset
  have ha1 := card_inter_le_left a.preferredActivities.toFinset b.preferredActivities.toFinset
  have ha2 := card_inter_le_right a.preferredActivities.toFinset b.preferredActivities.toFinset
  have hc1 := card_inter_le_left a.preferredCountries.toFinset b.preferredCountries.toFinset
  have hc2 := card_inter_le_right a.preferredCountries.toFinset b.preferredCountries.toFinset
  rw [compat_closed_form]
  unfold max_score
  refine ⟨Nat.zero_le _, ?_, ?_⟩ <;> split <;> omega

/-! ### C7 -/

/-- A traveler sharing with `bob7` exactly two interests, one language,
the travel style, and additionally one preferred activity. -/
def alice7 : User :=
  { userId := 1, userName := "Alice", userType := "Traveler",
    interests := ["hiking", "food", "museums"], languages := ["en", "fr"],
    travelStyle := "budget", preferredActivities := ["kayak"],
    preferredCountries := [], dislikedUserIds := [] }

/-- A guide sharing with `alice7` exactly two interests, one language,
the travel style, and additionally one preferred activity. -/
def bob7 : User :=
  { userId := 2, userName := "Bob", userType := "Guide",
    interests := ["hiking", "food"], languages := ["en"],
    travelStyle := "budget", preferredActivities := ["kayak"],
    preferredCountries := [], dislikedUserIds := [] }

/-- C7 counterexample: `alice7` and `bob7` share exactly 2 interests,
exactly 1 language and the travel style, yet their score is 85, not 75,
because they also share a preferred activity. -/
theorem compat_example_counterexample :
    (alice7.interests.toFinset ∩ bob7.interests.toFinset).card = 2 ∧
      (alice7.languages.toFinset ∩ bob7.languages.toFinset).card = 1 ∧
      alice7.travelStyle = bob7.travelStyle ∧
      calculate_compatibility alice7 bob7 ≠ 75 := by
  decide

/-- C7 amended: two users sharing exactly 2 interests, 1 language and
the travel style, and sharing no preferred activities and no preferred
countries, score 20 + 30 + 25 = 75. -/
theorem compat_example_amended (a b : User)
    (hi : (a.interests.toFinset ∩ b.interests.toFinset).card = 2)
    (hl : (a.languages.toFinset ∩ b.languages.toFinset).card = 1)
    (hs : a.travelStyle = b.travelStyle)
    (hact : (a.preferredActivities.toFinset ∩ b.preferredActivities.toFinset).card = 0)
    (hc : (a.preferredCountries.toFinset ∩ b.preferredCountries.toFinset).card = 0) :
    calculate_compatibility a b = 75 := by
  rw [compat_closed_form, hi, hl, hact, hc, if_pos hs]

/-- Like `alice7` but with no preferred activities in common with `dave7`. -/
def carol7 : User :=
  { userId := 3, userName := "Carol", userType := "Traveler",
    interests := ["hiking", "food", "museums"], languages := ["en", "fr"],
    travelStyle := "budget", preferredActivities := ["kayak"],
    preferredCountries := ["jp"], dislikedUserIds := [] }

/-- A guide sharing with `carol7` exactly two interests, one language and
the travel style, and nothing else. -/
def dave7 : User :=
  { userId := 4, userName := "Dave", userType := "Guide",
    interests := ["hiking", "food"], languages := ["en"],
    travelStyle := "budget", preferredActivities := ["surf"],
    preferredCountries := ["it"], dislikedUserIds := [] }

/-- Witness for the amended C7 at the concrete pair `carol7`, `dave7`. -/
theorem compat_example_amended_witness :
    calculate_compatibility carol7 dave7 = 75 :=
  compat_example_amended carol7 dave7 (by decide) (by decide) (by decide)
    (by decide) (by decide)

/-! ### C10 -/

lemma toFinset_dedup_eq (l : List String) : l.dedup.toFinset = l.toFinset := by
  ext x
  simp

/-- C10: duplicates in any of the list-valued fields never affect the
score; replacing any single list field of either argument with its
deduplicated version yields the same result. -/
theorem calculate_compatibility_dedup_invariant (a b : User) :
    calculate_compatibility { a with interests := a.interests.dedup } b
        = calculate_compatibility a b ∧
      calculate_compatibility { a with languages := a.languages.dedup } b
        = calculate_compatibility a b ∧
      calculate_compatibility { a with preferredActivities := a.preferredActivities.dedup } b
        = calculate_compatibility a b ∧
      calculate_compatibility { a with preferredCountries := a.preferredCountries.dedup } b
        = calculate_compatibility a b ∧
      calculate_compatibility a { b with interests := b.interests.dedup }
        = calculate_compatibility a b ∧
      calculate_compatibility a { b with languages := b.languages.dedup }
        = calculate_compatibility a b ∧
      calculate_compatibility a { b with preferredActivities := b.preferredActivities.dedup }
        = calculate_compatibility a b ∧
      calculate_compatibility a { b with preferredCountries := b.preferredCountries.dedup }
        = calculate_compatibility a b := by
  refine ⟨?_, ?_, ?_, ?_, ?_, ?_, ?_, ?_⟩ <;>
    simp [compat_closed_form, toFinset_dedup_eq]

/-! ### Lemmas about `find_matches` -/

lemma find_matches_eq_of_found {user_id : Nat} {users_df : List User} {current_user : User}
    (h : users_df.find? (fun u => u.userId == user_id) = some current_user) :
    find_matches user_id users_df =
      some ((pre_sort_scores current_user user_id users_df).mergeSort score_ge) := by
  unfold find_matches
  rw [h]

lemma mem_pre_sort_scores {current_user : User} {user_id : Nat} {users_df : List User}
    {e : String × Nat × Nat} :
    e ∈ pre_sort_scores current_user user_id users_df ↔
      ∃ u ∈ users_df, u.userType = target_user_type current_user ∧
        u.userId ∉ current_user.dislikedUserIds ∧ u.userId ≠ user_id ∧
        e = (u.userName, u.userId, calculate_compatibility current_user u) := by
  simp only [pre_sort_scores, List.mem_map, List.mem_filter]
  constructor
  · rintro ⟨u, ⟨⟨⟨hu, ht⟩, hd⟩, hi⟩, he⟩
    refine ⟨u, hu, by simpa using ht, by simpa using hd, by simpa using hi, he.symm⟩
  · rintro ⟨u, hu, ht, hd, hi, he⟩
    exact ⟨u, ⟨⟨⟨hu, by simpa using ht⟩, by simpa using hd⟩, by simpa using hi⟩, he.symm⟩

lemma target_user_type_ne (u : User) : target_user_type u ≠ u.userType := by
  unfold target_user_type
  by_cases h : u.userType = "Traveler"
  · rw [if_pos (by simp [h]), h]
    decide
  · rw [if_neg (by simp [h])]
    exact fun hh => h hh.symm

lemma score_ge_trans : ∀ a b c : String × Nat × Nat,
    score_ge a b → score_ge b c → score_ge a c := by
  intro a b c hab hbc
  simp only [score_ge, decide_eq_true_eq] at *
  omega

lemma score_ge_total : ∀ a b : String × Nat × Nat, score_ge a b || score_ge b a := by
  intro a b
  simp only [score_ge, Bool.or_eq_true, decide_eq_true_eq]
  omega

lemma pair_filter_eq {α : Type} (p : α → Bool) {u v : α}
    (hu : p u = true) (hv : p v = true) : List.filter p [u, v] = [u, v] := by
  rw [List.filter_cons_of_pos hu, List.filter_cons_of_pos hv, List.filter_nil]

/-! ### C2 -/

/-- C2: when the target `userId` is present, every result entry has an
id that is neither disliked by the target user nor the target id
itself, and originates from a record of the collection whose role
differs from the target user's role. -/
theorem find_matches_excludes (user_id : Nat) (users_df : List User)
    (current_user : User) (res : List (String × Nat × Nat))
    (hfind : users_df.find? (fun u => u.userId == user_id) = some current_user)
    (hres : find_matches user_id users_df = some res) :
    ∀ e ∈ res, e.2.1 ∉ current_user.dislikedUserIds ∧ e.2.1 ≠ user_id ∧
      ∃ u ∈ users_df, u.userName = e.1 ∧ u.userId = e.2.1 ∧
        u.userType ≠ current_user.userType := by
  intro e he
  rw [find_matches_eq_of_found hfind, Option.some_inj] at hres
  rw [← hres, List.mem_mergeSort, mem_pre_sort_scores] at he
  obtain ⟨u, hu, ht, hd, hi, rfl⟩ := he
  exact ⟨hd, hi, u, hu, rfl, rfl, ht ▸ target_user_type_ne current_user⟩

/-- The traveler at the head of `demo_users`; distrusts user 3. -/
def tina : User :=
  { userId := 1, userName := "Tina", userType := "Traveler",
    interests := ["hiking"], languages := ["en"], travelStyle := "budget",
    preferredActivities := [], preferredCountries := [],
    dislikedUserIds := [3] }

/-- A guide `tina` can match with. -/
def gus : User :=
  { userId := 2, userName := "Gus", userType := "Guide",
    interests := ["hiking"], languages := ["en"], travelStyle := "budget",
    preferredActivities := [], preferredCountries := [],
    dislikedUserIds := [] }

/-- A guide `tina` dislikes. -/
def greg : User :=
  { userId := 3, userName := "Greg", userType := "Guide",
    interests := ["hiking"], languages := ["en"], travelStyle := "budget",
    preferredActivities := [], preferredCountries := [],
    dislikedUserIds := [] }

/-- A second traveler, same role as `tina`, hence never a candidate. -/
def tom : User :=
  { userId := 4, userName := "Tom", userType := "Traveler",
    interests := ["hiking"], languages := ["en"], travelStyle := "budget",
    preferredActivities := [], preferredCountries := [],
    dislikedUserIds := [] }

/-- A small concrete collection. -/
def demo_users : List User := [tina, gus, greg, tom]

/-- Witness for C2 on the concrete collection `demo_users`, evaluated at
the single result entry `("Gus", 2, 65)`. -/
theorem find_matches_excludes_witness :
    (2 : Nat) ∉ tina.dislikedUserIds ∧ (2 : Nat) ≠ 1 ∧
      ∃ u ∈ demo_users, u.userName = "Gus" ∧ u.userId = 2 ∧
        u.userType ≠ tina.userType :=
  find_matches_excludes 1 demo_users tina [("Gus", 2, 65)] (by decide)
    (by rw [find_matches_eq_of_found (by decide : demo_users.find?
          (fun u => u.userId == 1) = some tina)]
        have hpre : pre_sort_scores tina 1 demo_users = [("Gus", 2, 65)] := by decide
        rw [hpre, List.mergeSort_singleton])
    ("Gus", 2, 65) (by decide)

/-! ### C4 -/

/-- C4: on a `userId` absent from the collection, the lookup
`users_df.loc[users_df['userId'] == user_id].iloc[0]` selects no row and
`.iloc[0]` raises `IndexError` (modelled by `none`): the code crashes on
an unchecked index access instead of surfacing a "user not found"
failure. -/
theorem find_matches_missing_user :
    find_matches 99 demo_users = none := by
  decide

/-! ### C9 -/

/-- C9: a target whose role is not exactly `"Traveler"` — including an
unrecognized third role — is matched against `"Traveler"` candidates;
only a `"Traveler"` target is matched against `"Guide"` candidates. -/
theorem find_matches_role_selection (user_id : Nat) (users_df : List User)
    (current_user : User) (res : List (String × Nat × Nat))
    (hfind : users_df.find? (fun u => u.userId == user_id) = some current_user)
    (hres : find_matches user_id users_df = some res) :
    (current_user.userType ≠ "Traveler" →
      ∀ e ∈ res, ∃ u ∈ users_df, u.userName = e.1 ∧ u.userId = e.2.1 ∧
        u.userType = "Traveler") ∧
    (current_user.userType = "Traveler" →
      ∀ e ∈ res, ∃ u ∈ users_df, u.userName = e.1 ∧ u.userId = e.2.1 ∧
        u.userType = "Guide") := by
  rw [find_matches_eq_of_found hfind, Option.some_inj] at hres
  constructor
  · intro hne e he
    rw [← hres, List.mem_mergeSort, mem_pre_sort_scores] at he
    obtain ⟨u, hu, ht, -, -, rfl⟩ := he
    refine ⟨u, hu, rfl, rfl, ?_⟩
    rwa [target_user_type, if_neg (by simp [hne])] at ht
  · intro heq e he
    rw [← hres, List.mem_mergeSort, mem_pre_sort_scores] at he
    obtain ⟨u, hu, ht, -, -, rfl⟩ := he
    refine ⟨u, hu, rfl, rfl, ?_⟩
    rwa [target_user_type, if_pos (by simp [heq])] at ht

/-- A user with an unrecognized role. -/
def amy : User :=
  { userId := 5, userName := "Amy", userType := "Admin",
    interests := ["hiking"], languages := ["en"], travelStyle := "budget",
    preferredActivities := [], preferredCountries := [],
    dislikedUserIds := [] }

/-- A collection whose target user has the unrecognized role `"Admin"`. -/
def demo_admin_users : List User := [amy, gus, tom]

/-- Witness for C9: the `"Admin"` target `amy` is silently matched
against the traveler `tom`, not rejected; evaluated at the single result
entry `("Tom", 4, 65)`. -/
theorem find_matches_role_selection_witness :
    ∃ u ∈ demo_admin_users, u.userName = "Tom" ∧ u.userId = 4 ∧
      u.userType = "Traveler" :=
  (find_matches_role_selection 5 demo_admin_users amy [("Tom", 4, 65)] (by decide)
    (by rw [find_matches_eq_of_found (by decide : demo_admin_users.find?
          (fun u => u.userId == 5) = some amy)]
        have hpre : pre_sort_scores amy 5 demo_admin_users = [("Tom", 4, 65)] := by decide
        rw [hpre, List.mergeSort_singleton])).1
    (by decide) ("Tom", 4, 65) (by decide)

/-! ### C3 -/

/-- C3: when the target `userId` is present, the result list is sorted
in descending order of score, and the sort is stable: any two eligible
candidates of the collection with equal scores produce entries in the
same relative order as their records appear in the collection's
iteration order (the `scores` list is built by filters and a loop that
preserve that order, and the sort keeps ties in place). -/
theorem find_matches_sorted_stable (user_id : Nat) (users_df : List User)
    (current_user : User) (res : List (String × Nat × Nat))
    (hfind : users_df.find? (fun u => u.userId == user_id) = some current_user)
    (hres : find_matches user_id users_df = some res) :
    res.Pairwise (fun a b => b.2.2 ≤ a.2.2) ∧
    ∀ u v : User, [u, v].Sublist users_df →
      u.userType = target_user_type current_user →
      v.userType = target_user_type current_user →
      u.userId ∉ current_user.dislikedUserIds →
      v.userId ∉ current_user.dislikedUserIds →
      u.userId ≠ user_id → v.userId ≠ user_id →
      calculate_compatibility current_user u = calculate_compatibility current_user v →
      [(u.userName, u.userId, calculate_compatibility current_user u),
        (v.userName, v.userId, calculate_compatibility current_user v)].Sublist res := by
  rw [find_matches_eq_of_found hfind, Option.some_inj] at hres
  subst hres
  constructor
  · exact (List.sorted_mergeSort score_ge_trans score_ge_total _).imp
      (fun h => by simpa [score_ge] using h)
  · intro u v hsub htu htv hdu hdv hiu hiv hscore
    have hu1 : (u.userType == target_user_type current_user) = true := by simpa using htu
    have hv1 : (v.userType == target_user_type current_user) = true := by simpa using htv
    have hu2 : (!(current_user.dislikedUserIds.contains u.userId)) = true := by simpa using hdu
    have hv2 : (!(current_user.dislikedUserIds.contains v.userId)) = true := by simpa using hdv
    have hu3 : (u.userId != user_id) = true := by simpa using hiu
    have hv3 : (v.userId != user_id) = true := by simpa using hiv
    have h1 : [u, v].Sublist
        (users_df.filter (fun x => x.userType == target_user_type current_user)) := by
      have h := hsub.filter (fun x => x.userType == target_user_type current_user)
      rwa [pair_filter_eq (fun x : User => x.userType == target_user_type current_user) hu1 hv1] at h
    have h2 : [u, v].Sublist
        ((users_df.filter (fun x => x.userType == target_user_type current_user)).filter
          (fun x => !(current_user.dislikedUserIds.contains x.userId))) := by
      have h := h1.filter (fun x => !(current_user.dislikedUserIds.contains x.userId))
      rwa [pair_filter_eq (fun x : User => !(current_user.dislikedUserIds.contains x.userId)) hu2 hv2] at h
    have h3 : [u, v].Sublist
        (((users_df.filter (fun x => x.userType == target_user_type current_user)).filter
            (fun x => !(current_user.dislikedUserIds.contains x.userId))).filter
          (fun x => x.userId != user_id)) := by
      have h := h2.filter (fun x => x.userId != user_id)
      rwa [pair_filter_eq (fun x : User => x.userId != user_id) hu3 hv3] at h
    have h4 := h3.map (fun x => (x.userName, x.userId, calculate_compatibility current_user x))
    refine List.pair_sublist_mergeSort score_ge_trans score_ge_total ?_ h4
    simp [score_ge, hscore]

/-- A traveler with no disliked users, target of the tie witness. -/
def tess : User :=
  { userId := 1, userName := "Tess", userType := "Traveler",
    interests := ["hiking"], languages := ["en"], travelStyle := "budget",
    preferredActivities := [], preferredCountries := [],
    dislikedUserIds := [] }

/-- A collection with two guides that score identically against `tess`. -/
def demo_tie_users : List User := [tess, gus, greg]

/-- Witness for C3 on `demo_tie_users`: `gus` and `greg` tie at 65 and
keep their collection order in the result; the stability part is
evaluated at the concrete pair `gus`, `greg`. -/
theorem find_matches_sorted_stable_witness :
    ([("Gus", 2, 65), ("Greg", 3, 65)] : List (String × Nat × Nat)).Pairwise
        (fun a b => b.2.2 ≤ a.2.2) ∧
    ([("Gus", 2, calculate_compatibility tess gus),
      ("Greg", 3, calculate_compatibility tess greg)] :
        List (String × Nat × Nat)).Sublist [("Gus", 2, 65), ("Greg", 3, 65)] := by
  have h := find_matches_sorted_stable 1 demo_tie_users tess
      [("Gus", 2, 65), ("Greg", 3, 65)] (by decide)
      (by rw [find_matches_eq_of_found (by decide : demo_tie_users.find?
            (fun u => u.userId == 1) = some tess)]
          have hpre : pre_sort_scores tess 1 demo_tie_users
              = [("Gus", 2, 65), ("Greg", 3, 65)] := by decide
          rw [hpre, List.mergeSort_of_sorted (by decide)])
  exact ⟨h.1, h.2 gus greg ((List.Sublist.refl [gus, greg]).cons tess)
    (by decide) (by decide) (by decide) (by decide) (by decide) (by decide) (by decide)⟩

end MatchUsers
